import Mathlib

/-!
Verification of the `currency` command-line converter (src/main.rs) against its
natural-language specification.  The program is embedded shallowly: JSON values
become an inductive type, the filesystem / network environment becomes explicit
data threaded through pure functions, and 64-bit floats are modelled by the
rationals (every concrete numeric literal appearing in the claims is exactly
representable in binary64, and the claims under study are structural, not about
rounding).
-/

namespace Currency

/-- Model of `serde_json::Value`; JSON numbers are carried as rationals. -/
inductive Json where
  | null
  | bool (b : Bool)
  | num (q : ℚ)
  | str (s : String)
  | arr (elems : List Json)
  | obj (fields : List (String × Json))

/-- First-match association-list lookup, the model of `serde_json::Map::get`. -/
def lookupField : List (String × Json) → String → Option Json
  | [], _ => none
  | (k, v) :: rest, key => if k = key then some v else lookupField rest key

/-- Model of `Value::get` on a string key: a value for objects, `none` otherwise. -/
def Json.getKey : Json → String → Option Json
  | .obj fields, key => lookupField fields key
  | _, _ => none

/-- Model of `serde_json`'s `v["rates"]` shared indexing: the stored value when
`v` is an object containing the key, `Value::Null` in every other case. -/
def Json.index (v : Json) (key : String) : Json :=
  (v.getKey key).getD .null

/-- Model of `Value::as_f64`: numbers convert, everything else gives `none`. -/
def Json.asF64 : Json → Option ℚ
  | .num q => some q
  | _ => none

/-- Model of Rust `str::to_uppercase` on the ASCII range (currency codes are
ASCII; Lean's `Char.toUpper` uppercases exactly the basic latin letters). -/
def rustToUppercase (s : String) : String :=
  ⟨s.data.map Char.toUpper⟩

/-- One line written to standard error, tagged by which `eprintln!` produced it. -/
inductive ErrLine where
  | usageBanner
  | usageUsage
  | usageExample
  | refreshWarning (e : String)
  | readFail (path : String)
  | jsonParseFail
  | noRates
  | notRecognized (code : String)
deriving DecidableEq

/-- The exact text of each standard-error line in src/main.rs. -/
def ErrLine.render : ErrLine → String
  | .usageBanner => "currency -- Currency converter."
  | .usageUsage => "Usage:   currency FROM TO amount"
  | .usageExample => "Example: currency USD EUR 123.45"
  | .refreshWarning e =>
      "Warning: unable to refresh currency rates (" ++ e ++ "). Trying to use previous data."
  | .readFail path =>
      "Error: unable to read currency rates from " ++ path ++ ". Verify the file exists and permissions."
  | .jsonParseFail => "Error: \x22Could not parse JSON from the currency file\x22"
  | .noRates => "Error: No \x27rates\x27 field found in the JSON data."
  | .notRecognized code => "Error: \x27" ++ code ++ "\x27 is not recognized as a currency."

/-- The three `eprintln!` lines printed on an arity mismatch. -/
def usageMsg : List ErrLine :=
  [.usageBanner, .usageUsage, .usageExample]

/-- `Duration::from_secs(3600)` in nanoseconds (`SystemTime` durations are
nanosecond-precise). -/
def cacheTtlNanos : Nat := 3600 * 1000000000

/-- The `need_refresh` decision of `main`: `mtime` is the cache file's
modification time in nanoseconds (`none` when `fs::metadata` or `modified()`
fails, in particular when the file is absent), `now` the current time.
`now.duration_since(mtime)` succeeds exactly when `mtime ≤ now`. -/
def needRefreshF (mtime : Option Nat) (now : Nat) : Bool :=
  match mtime with
  | none => true
  | some m => if m ≤ now ∧ now - m < cacheTtlNanos then false else true

/-- `StatusCode::is_success`: the 2xx range. -/
def statusIsSuccess (s : Nat) : Bool :=
  decide (200 ≤ s) && decide (s < 300)

/-- The HTTP response seen by `refresh_rates`: its status code and the outcome
of `response.bytes()`.  A body is recorded by its parse status — `some j` for
bytes that later parse as the JSON document `j`, `none` for bytes that do not
parse as JSON. -/
structure HttpResponse where
  status : Nat
  bytesResult : Except String (Option Json)

/-- The outcomes the environment hands each fallible step of `refresh_rates`
(in source order: `fs::create_dir_all`, `reqwest::get`, `OpenOptions::open`,
`File::write_all`). -/
structure RefreshEnv where
  createDir : Except String Unit
  http : Except String HttpResponse
  openFile : Except String Unit
  writeAll : Except String Unit

/-- What `refresh_rates` did to the cache file.  `truncated` records that the
file was opened with `truncate(true)` (emptying it) but `write_all` then
failed, leaving an empty file; an empty file does not parse as JSON. -/
inductive FileEffect where
  | untouched
  | truncated
  | written (body : Option Json)

/-- Shallow embedding of `refresh_rates` (src/main.rs lines 119-141): its
returned `Result` together with the effect on the cache file. -/
def refresh_rates (env : RefreshEnv) : Except String Unit × FileEffect :=
  match env.createDir with
  | .error e => (.error e, .untouched)
  | .ok _ =>
    match env.http with
    | .error e => (.error e, .untouched)
    | .ok resp =>
      if statusIsSuccess resp.status = false then
        (.error ("HTTP request failed with status: " ++ toString resp.status), .untouched)
      else
        match resp.bytesResult with
        | .error e => (.error e, .untouched)
        | .ok body =>
          match env.openFile with
          | .error e => (.error e, .untouched)
          | .ok _ =>
            match env.writeAll with
            | .error e => (.error e, .truncated)
            | .ok _ => (.ok (), .written body)

/-- Cache-file state as the later `fs::read_to_string` + `serde_json::from_str`
will see it: `none` = unreadable (in particular absent), `some none` = readable
but not valid JSON, `some (some j)` = parses to the document `j`. -/
def applyEffect (prev : Option (Option Json)) : FileEffect → Option (Option Json)
  | .untouched => prev
  | .truncated => some none
  | .written body => some body

/-- The whole environment of one run.  `parseF64` models `str::parse::<f64>`
(supplied by the environment so that theorems cover the exact parser);
`mtime`/`now` are nanosecond timestamps; `fileBefore` is the cache-file state
before the run.  `HOME` is assumed present (its absence panics before any
behaviour the specification's claims describe). -/
structure Input where
  args : List String
  parseF64 : String → Option ℚ
  homeDir : String
  mtime : Option Nat
  now : Nat
  fileBefore : Option (Option Json)
  refreshEnv : RefreshEnv

/-- `$HOME` ⧺ `.cache/currency.db`, as `PathBuf::push` builds it. -/
def cachePath (home : String) : String :=
  home ++ "/.cache/currency.db"

/-- The refresh phase of `main` (lines 40-67): whether a refresh was attempted,
the cache-file state afterwards, and the warning lines it printed. -/
def refreshStep (inp : Input) : Bool × Option (Option Json) × List ErrLine :=
  if needRefreshF inp.mtime inp.now then
    match refresh_rates inp.refreshEnv with
    | (.ok _, eff) => (true, applyEffect inp.fileBefore eff, [])
    | (.error e, eff) => (true, applyEffect inp.fileBefore eff, [.refreshWarning e])
  else (false, inp.fileBefore, [])

/-- Digit value of an ASCII digit character. -/
def digitVal (c : Char) : Option Nat :=
  if 48 ≤ c.toNat ∧ c.toNat ≤ 57 then some (c.toNat - 48) else none

/-- Read a nonempty run of ASCII digits as a natural number. -/
def parseNatDigits (cs : List Char) : Option Nat :=
  if cs.isEmpty then none
  else
    cs.foldl
      (fun acc c =>
        match acc, digitVal c with
        | some n, some d => some (n * 10 + d)
        | _, _ => none)
      (some 0)

/-- Split a character list at the first `.` (code 46), keeping what follows. -/
def splitDot : List Char → List Char × Option (List Char)
  | [] => ([], none)
  | c :: tl =>
    if c.toNat = 46 then ([], some tl)
    else
      let (a, b) := splitDot tl
      (c :: a, b)

/-- Model of `str::parse::<f64>` on plain decimal literals
(optional sign, integer digits, optional fractional digits); exponents and the
special values are outside the model, and a value is returned exactly (the
concrete literals used below are exactly representable in binary64). -/
def rustParseF64 (s : String) : Option ℚ :=
  let cs := s.data
  let signed : ℚ × List Char :=
    match cs with
    | c :: tl =>
      if c.toNat = 45 then (-1, tl)
      else if c.toNat = 43 then (1, tl) else (1, cs)
    | [] => (1, [])
  let sign := signed.1
  match splitDot signed.2 with
  | (ip, none) => (parseNatDigits ip).map (fun n => sign * n)
  | (ip, some fp) =>
    if ip.isEmpty ∧ fp.isEmpty then none
    else
      match (if ip.isEmpty then some 0 else parseNatDigits ip),
            (if fp.isEmpty then some 0 else parseNatDigits fp) with
      | some i, some f => some (sign * ((i : ℚ) + (f : ℚ) / 10 ^ fp.length))
      | _, _ => none

/-- Round to the nearest integer, ties to even — the rounding Rust's fixed
precision float formatting applies to the exact value of the double. -/
def roundHalfEven (q : ℚ) : ℤ :=
  let n := Rat.floor q
  if q - n < 1 / 2 then n
  else if 1 / 2 < q - n then n + 1
  else if n % 2 = 0 then n else n + 1

/-- Left-pad a number below 10000 to four digits. -/
def pad4 (n : Nat) : String :=
  if n < 10 then "000" ++ toString n
  else if n < 100 then "00" ++ toString n
  else if n < 1000 then "0" ++ toString n
  else toString n

/-- Rust's fixed precision float formatting with four decimal places, on the
rational model of the double being printed. -/
def format4 (q : ℚ) : String :=
  let a := if q < 0 then -q else q
  let m := (roundHalfEven (a * 10000)).toNat
  (if q < 0 then "-" else "") ++ toString (m / 10000) ++ "." ++ pad4 (m % 10000)

/-- Everything printed of one run: standard output, standard error, exit code. -/
structure RunOut where
  stdout : List String
  stderr : List ErrLine
  exitCode : Nat
deriving DecidableEq

/-- The one `println!` of `main`: `FROM amount = TO converted`, both numbers to
four decimal places. -/
def outLine (f t : String) (amount converted : ℚ) : String :=
  f ++ " " ++ format4 amount ++ " = " ++ t ++ " " ++ format4 converted

/-- Lines 70-113 of `main`: read the cache, parse it, extract `rates`, look up
both codes, convert, print.  `warn` carries the refresh phase's stderr lines. -/
def processDoc (warn : List ErrLine) (path f t : String) (amount : ℚ)
    (file : Option (Option Json)) : RunOut :=
  match file with
  | none => ⟨[], warn ++ [.readFail path], 1⟩
  | some none => ⟨[], warn ++ [.jsonParseFail], 1⟩
  | some (some v) =>
    match v.index "rates" with
    | .obj fields =>
      match lookupField fields f with
      | none => ⟨[], warn ++ [.notRecognized f], 1⟩
      | some vf =>
        let rate_from := (vf.asF64).getD 0
        match lookupField fields t with
        | none => ⟨[], warn ++ [.notRecognized t], 1⟩
        | some vt =>
          let rate_to := (vt.asF64).getD 0
          ⟨[outLine f t amount ((amount / rate_from) * rate_to)], warn, 0⟩
    | _ => ⟨[], warn ++ [.noRates], 1⟩

/-- Shallow embedding of `main` (src/main.rs lines 21-116). -/
def mainRun (inp : Input) : RunOut :=
  if inp.args.length ≠ 4 then ⟨[], usageMsg, 0⟩
  else
    let f := rustToUppercase (inp.args.getD 1 "")
    let t := rustToUppercase (inp.args.getD 2 "")
    let amount := (inp.parseF64 (inp.args.getD 3 "")).getD 0
    let step := refreshStep inp
    processDoc step.2.2 (cachePath inp.homeDir) f t amount step.2.1

/-! ### Helper lemmas -/

lemma rat_floor_eq_intFloor (q : ℚ) : q.floor = ⌊q⌋ := rfl

lemma roundHalfEven_intCast (n : ℤ) : roundHalfEven ((n : ℤ) : ℚ) = n := by
  unfold roundHalfEven
  norm_num [rat_floor_eq_intFloor]

lemma str_data_append (a b : String) : (a ++ b).data = a.data ++ b.data := rfl

lemma str_ext {a b : String} (h : a.data = b.data) : a = b := by
  cases a; cases b; exact congrArg String.mk h

lemma format4_natCast (n : ℕ) : format4 ((n : ℕ) : ℚ) = toString (n : ℕ) ++ ".0000" := by
  have h2 : ¬ ((n : ℚ) < 0) := not_lt.mpr (by positivity)
  have h1 : ((n : ℚ)) * 10000 = ((((n * 10000 : ℕ) : ℤ)) : ℚ) := by push_cast; ring
  unfold format4
  dsimp only
  rw [if_neg h2, if_neg h2, h1, roundHalfEven_intCast]
  have h3 : ((n * 10000 : ℕ) : ℤ).toNat = n * 10000 := by omega
  rw [h3]
  have h4 : n * 10000 / 10000 = n := by omega
  have h5 : n * 10000 % 10000 = 0 := by omega
  rw [h4, h5]
  apply str_ext
  simp only [str_data_append, pad4]
  norm_num
  rfl

/-- With exactly four arguments, `main` flows into the read/lookup/convert
pipeline, carrying the refresh phase's warnings and file state. -/
lemma run_args (inp : Input) (p f t a : String) (hargs : inp.args = [p, f, t, a]) :
    mainRun inp =
      processDoc (refreshStep inp).2.2 (cachePath inp.homeDir)
        (rustToUppercase f) (rustToUppercase t)
        ((inp.parseF64 a).getD 0) (refreshStep inp).2.1 := by
  unfold mainRun
  rw [hargs]
  simp [List.getD]

/-- Evaluation of the pipeline when everything succeeds. -/
lemma processDoc_success (warn : List ErrLine) (path f t : String) (amount : ℚ)
    (v : Json) (fs : List (String × Json)) (vf vt : Json)
    (hrates : v.index "rates" = .obj fs)
    (hf : lookupField fs f = some vf)
    (ht : lookupField fs t = some vt) :
    processDoc warn path f t amount (some (some v)) =
      ⟨[outLine f t amount ((amount / (vf.asF64).getD 0) * (vt.asF64).getD 0)], warn, 0⟩ := by
  unfold processDoc
  dsimp only
  rw [hrates]
  simp only [hf, ht]

/-- Evaluation of the pipeline when the first lookup fails. -/
lemma processDoc_noFrom (warn : List ErrLine) (path f t : String) (amount : ℚ)
    (v : Json) (fs : List (String × Json))
    (hrates : v.index "rates" = .obj fs)
    (hf : lookupField fs f = none) :
    processDoc warn path f t amount (some (some v)) =
      ⟨[], warn ++ [.notRecognized f], 1⟩ := by
  unfold processDoc
  dsimp only
  rw [hrates]
  simp only [hf]

/-- Evaluation of the pipeline when the second lookup fails. -/
lemma processDoc_noTo (warn : List ErrLine) (path f t : String) (amount : ℚ)
    (v : Json) (fs : List (String × Json)) (vf : Json)
    (hrates : v.index "rates" = .obj fs)
    (hf : lookupField fs f = some vf)
    (ht : lookupField fs t = none) :
    processDoc warn path f t amount (some (some v)) =
      ⟨[], warn ++ [.notRecognized t], 1⟩ := by
  unfold processDoc
  dsimp only
  rw [hrates]
  simp only [hf, ht]

lemma char_toNat_ofNat (n : Nat) (h : n.isValidChar) : (Char.ofNat n).toNat = n := by
  unfold Char.ofNat
  rw [dif_pos h]
  unfold Char.ofNatAux Char.toNat
  simp [UInt32.toNat]

lemma toUpper_not_lower (c : Char) :
    ¬(97 ≤ (Char.toUpper c).toNat ∧ (Char.toUpper c).toNat ≤ 122) := by
  unfold Char.toUpper
  dsimp only
  split_ifs with h
  · have hv : (c.toNat - 32).isValidChar := by
      left
      omega
    rw [char_toNat_ofNat _ hv]
    omega
  · omega

lemma rustToUppercase_data (s : String) :
    (rustToUppercase s).data = s.data.map Char.toUpper := rfl

lemma rustToUppercase_no_lower (s : String) :
    ∀ c ∈ (rustToUppercase s).data, ¬(97 ≤ c.toNat ∧ c.toNat ≤ 122) := by
  intro c hc
  rw [rustToUppercase_data, List.mem_map] at hc
  obtain ⟨b, _, rfl⟩ := hc
  exact toUpper_not_lower b

lemma rustParseF64_100 : rustParseF64 "100" = some 100 := by
  have h : rustParseF64 "100" = some (1 * ((100 : ℕ) : ℚ)) := rfl
  rw [h]; norm_num

/-- The cache is fresh: the fetch is skipped, the file and stderr untouched. -/
lemma refreshStep_fresh (inp : Input) (m : Nat) (hm : inp.mtime = some m)
    (h1 : m ≤ inp.now) (h2 : inp.now - m < cacheTtlNanos) :
    refreshStep inp = (false, inp.fileBefore, []) := by
  have hn : needRefreshF inp.mtime inp.now = false := by
    rw [hm]
    unfold needRefreshF
    dsimp only
    rw [if_pos ⟨h1, h2⟩]
  unfold refreshStep
  rw [hn]
  simp

/-- A refresh was attempted and failed: the warning is recorded and the file
carries the attempt's effect. -/
lemma refreshStep_failed (inp : Input) (e : String) (eff : FileEffect)
    (hn : needRefreshF inp.mtime inp.now = true)
    (hr : refresh_rates inp.refreshEnv = (.error e, eff)) :
    refreshStep inp = (true, applyEffect inp.fileBefore eff, [.refreshWarning e]) := by
  unfold refreshStep
  rw [hn, hr]
  simp

/-- A cache file at least one hour old forces `need_refresh`. -/
lemma needRefreshF_stale (m now : Nat) (h : m + cacheTtlNanos ≤ now) :
    needRefreshF (some m) now = true := by
  unfold needRefreshF
  dsimp only
  rw [if_neg]
  omega

/-- On any refresh failure the effect is never a completed write. -/
lemma refresh_rates_error_effect (env : RefreshEnv) (e : String) (eff : FileEffect)
    (hr : refresh_rates env = (.error e, eff)) :
    eff = .untouched ∨ (eff = .truncated ∧ env.writeAll = .error e) := by
  unfold refresh_rates at hr
  rcases env with ⟨cd, http, op, wr⟩
  rcases cd with ce | cu
  · simp_all
  rcases http with he | resp
  · simp_all
  dsimp only at hr
  by_cases hs : statusIsSuccess resp.status = false
  · rw [if_pos hs] at hr
    simp_all
  rw [if_neg hs] at hr
  rcases resp with ⟨st, bytes⟩
  rcases bytes with be | body
  · simp_all
  rcases op with oe | ou
  · simp_all
  rcases wr with we | wu
  · simp_all
  · simp_all

lemma run_exit0_stdout (inp : Input) (p f t a : String)
    (hargs : inp.args = [p, f, t, a])
    (h0 : (mainRun inp).exitCode = 0) :
    ∃ conv, (mainRun inp).stdout =
      [outLine (rustToUppercase f) (rustToUppercase t) ((inp.parseF64 a).getD 0) conv] := by
  rw [run_args inp p f t a hargs] at h0 ⊢
  unfold processDoc at h0 ⊢
  rcases hfile : (refreshStep inp).2.1 with _ | ov
  · rw [hfile] at h0
    simp at h0
  rcases ov with _ | v
  · rw [hfile] at h0
    simp at h0
  rw [hfile] at h0
  dsimp only at h0 ⊢
  rcases hv : v.index "rates" with _ | b | q | s | xs | fs
  all_goals simp only [hv] at h0 ⊢
  all_goals try simp at h0
  rcases hf : lookupField fs (rustToUppercase f) with _ | vf
  all_goals simp only [hf] at h0 ⊢
  · simp at h0
  rcases ht : lookupField fs (rustToUppercase t) with _ | vt
  all_goals simp only [ht] at h0 ⊢
  · simp at h0
  exact ⟨_, rfl⟩

/-- A refresh is attempted whenever the decision says so. -/
lemma refreshStep_attempt (inp : Input)
    (hn : needRefreshF inp.mtime inp.now = true) : (refreshStep inp).1 = true := by
  unfold refreshStep
  rw [hn]
  rcases refresh_rates inp.refreshEnv with ⟨res, eff⟩
  cases res <;> simp

/-- The refresh phase prints nothing except possibly the one warning line. -/
lemma refreshStep_stderr_shape (inp : Input) :
    (refreshStep inp).2.2 = [] ∨ ∃ e, (refreshStep inp).2.2 = [.refreshWarning e] := by
  unfold refreshStep
  split
  · rcases hr : refresh_rates inp.refreshEnv with ⟨res, eff⟩
    cases res
    · right
      exact ⟨_, rfl⟩
    · left
      rfl
  · left
    rfl

/-! ### Concrete fixtures used by witnesses and counterexamples -/

/-- The rate table of the specification's worked example. -/
def sampleFields : List (String × Json) := [("USD", .num 1), ("EUR", .num (9 / 10))]

/-- The cache document of the specification's worked example. -/
def sampleDoc : Json := .obj [("rates", .obj sampleFields)]

/-- An environment in which every refresh step succeeds. -/
def okEnv : RefreshEnv :=
  { createDir := .ok (), http := .ok ⟨200, .ok (some sampleDoc)⟩,
    openFile := .ok (), writeAll := .ok () }

/-! ### Claims -/

/-- C1: for every amount and every pair of rates with all three valid numeric
values and both rates greater than 0, the converted value the program computes
and prints equals `(amount / rate_from) * rate_to`.  (The conversion is the
composition of the division and the multiplication, in that order, so the
identity holds under any arithmetic interpretation of the operations,
in particular under binary64.) -/
theorem converted_value_formula (inp : Input) (p f t a : String) (amt rf rt : ℚ)
    (v : Json) (fs : List (String × Json))
    (hargs : inp.args = [p, f, t, a])
    (hamt : inp.parseF64 a = some amt)
    (hfile : (refreshStep inp).2.1 = some (some v))
    (hrates : v.index "rates" = .obj fs)
    (hf : lookupField fs (rustToUppercase f) = some (.num rf))
    (ht : lookupField fs (rustToUppercase t) = some (.num rt))
    (hrf : 0 < rf) (hrt : 0 < rt) :
    mainRun inp =
      ⟨[outLine (rustToUppercase f) (rustToUppercase t) amt ((amt / rf) * rt)],
        (refreshStep inp).2.2, 0⟩ := by
  rw [run_args inp p f t a hargs, hamt, hfile,
    processDoc_success _ _ _ _ _ v fs (.num rf) (.num rt) hrates hf ht]
  rfl

/-- Input of the C1 witness: fresh cache holding the sample table, `USD EUR 100`. -/
def c1Input : Input :=
  { args := ["currency", "USD", "EUR", "100"], parseF64 := rustParseF64,
    homeDir := "/home/user", mtime := some 0, now := 0,
    fileBefore := some (some sampleDoc), refreshEnv := okEnv }

/-- C1 witness: the theorem applied to the sample run. -/
theorem converted_value_formula_witness :
    (0 : ℚ) < 1 ∧ (0 : ℚ) < 9 / 10 ∧
    mainRun c1Input =
      ⟨[outLine "USD" "EUR" 100 ((100 / 1) * (9 / 10))], [], 0⟩ :=
  ⟨by norm_num, by norm_num,
    converted_value_formula c1Input "currency" "USD" "EUR" "100" 100 1 (9 / 10)
      sampleDoc sampleFields rfl rustParseF64_100 rfl rfl rfl rfl
      (by norm_num) (by norm_num)⟩

/-- Environment whose HTTP GET fails, so a refresh attempt is visible as a
warning on standard error. -/
def httpFailEnv : RefreshEnv :=
  { createDir := .ok (), http := .error "connection refused",
    openFile := .ok (), writeAll := .ok () }

/-- Input of the C2 counterexample: the cache file exists and is exactly
3600 seconds old. -/
def c2CexInput : Input :=
  { args := ["currency", "USD", "EUR", "100"], parseF64 := rustParseF64,
    homeDir := "/home/user", mtime := some 0, now := 3600 * 1000000000,
    fileBefore := some none, refreshEnv := httpFailEnv }

/-- C2 counterexample: a cache whose modification time is exactly 3600 seconds
before now ("no more than 3600 seconds") is NOT treated as fresh: the program
attempts the fetch, observably so because the failed attempt's warning reaches
standard error. -/
theorem cache_fresh_claim_cex :
    c2CexInput.mtime = some 0 ∧
    c2CexInput.now - 0 ≤ 3600 * 1000000000 ∧
    (refreshStep c2CexInput).1 = true ∧
    (mainRun c2CexInput).stderr = [.refreshWarning "connection refused", .jsonParseFail] :=
  ⟨rfl, by decide, rfl, rfl⟩

/-- C2 (amended): if the file exists and its modification time is strictly
less than 3600 seconds before now, the cache is treated as fresh and the
remote fetch is skipped (file state and standard error untouched). -/
theorem cache_fresh_skips_fetch (inp : Input) (m : Nat)
    (hm : inp.mtime = some m) (h1 : m ≤ inp.now)
    (h2 : inp.now - m < 3600 * 1000000000) :
    (refreshStep inp).1 = false ∧ refreshStep inp = (false, inp.fileBefore, []) := by
  have h := refreshStep_fresh inp m hm h1 h2
  exact ⟨by rw [h], h⟩

/-- Input of the C2 witness: a cache one nanosecond younger than the one-hour limit. -/
def c2FreshInput : Input :=
  { args := ["currency", "USD", "EUR", "100"], parseF64 := rustParseF64,
    homeDir := "/home/user", mtime := some 0, now := 3600 * 1000000000 - 1,
    fileBefore := some (some sampleDoc), refreshEnv := httpFailEnv }

/-- C2 witness: the amended theorem applied to a just-under-one-hour cache. -/
theorem cache_fresh_skips_fetch_witness :
    (refreshStep c2FreshInput).1 = false ∧
    refreshStep c2FreshInput = (false, c2FreshInput.fileBefore, []) :=
  cache_fresh_skips_fetch c2FreshInput 0 rfl (by decide) (by decide)

/-- C3: a cache file exactly 3600 seconds old (or older) triggers a refresh
attempt; one strictly less than 3600 seconds old does not. -/
theorem staleness_boundary (inp : Input) (m : Nat) (hm : inp.mtime = some m) :
    (m + 3600 * 1000000000 ≤ inp.now → (refreshStep inp).1 = true) ∧
    (m ≤ inp.now → inp.now - m < 3600 * 1000000000 → (refreshStep inp).1 = false) := by
  constructor
  · intro h
    exact refreshStep_attempt inp (by rw [hm]; exact needRefreshF_stale m inp.now h)
  · intro h1 h2
    rw [refreshStep_fresh inp m hm h1 h2]

/-- Input of the C3 witness, stale side: exactly one hour old. -/
def c3StaleInput : Input :=
  { args := ["currency", "USD", "EUR", "100"], parseF64 := rustParseF64,
    homeDir := "/home/user", mtime := some 5, now := 5 + 3600 * 1000000000,
    fileBefore := some (some sampleDoc), refreshEnv := okEnv }

/-- C3 witness: both directions of the boundary at concrete times. -/
theorem staleness_boundary_witness :
    (refreshStep c3StaleInput).1 = true ∧ (refreshStep c2FreshInput).1 = false :=
  ⟨(staleness_boundary c3StaleInput 5 rfl).1 (by decide),
   (staleness_boundary c2FreshInput 0 rfl).2 (by decide) (by decide)⟩

/-- Environment in which everything succeeds up to `write_all`, which fails
after the cache file was already opened with `truncate(true)`. -/
def writeFailEnv : RefreshEnv :=
  { createDir := .ok (), http := .ok ⟨200, .ok (some sampleDoc)⟩,
    openFile := .ok (), writeAll := .error "disk full" }

/-- Input of the C4 counterexample: stale cache holding the sample document,
refresh fails at the final disk write. -/
def c4CexInput : Input :=
  { args := ["currency", "USD", "EUR", "100"], parseF64 := rustParseF64,
    homeDir := "/home/user", mtime := none, now := 0,
    fileBefore := some (some sampleDoc), refreshEnv := writeFailEnv }

/-- C4 counterexample: a disk write error during refresh does print the warning
and does continue, but the run does NOT use the previous cache contents: the
file was already truncated, so the run sees an empty (unparsable) cache and
fails JSON parsing instead of converting with the old rates. -/
theorem refresh_failure_claim_cex :
    refresh_rates c4CexInput.refreshEnv = (.error "disk full", .truncated) ∧
    c4CexInput.fileBefore = some (some sampleDoc) ∧
    (refreshStep c4CexInput).2.1 = some none ∧
    (refreshStep c4CexInput).2.1 ≠ c4CexInput.fileBefore ∧
    mainRun c4CexInput = ⟨[], [.refreshWarning "disk full", .jsonParseFail], 1⟩ := by
  refine ⟨rfl, rfl, rfl, ?_, rfl⟩
  show (some none : Option (Option Json)) ≠ some (some sampleDoc)
  simp

/-- C4 (amended): on every failure during the refresh sequence the program
prints the warning to standard error and continues into the normal
read/convert pipeline rather than aborting; the previous cache contents are
still in place for every failure except a `write_all` error, which leaves the
cache truncated to an empty (unparsable) file. -/
theorem refresh_failure_warns_continues (inp : Input) (p f t a e : String)
    (eff : FileEffect)
    (hargs : inp.args = [p, f, t, a])
    (hn : needRefreshF inp.mtime inp.now = true)
    (hr : refresh_rates inp.refreshEnv = (.error e, eff)) :
    (refreshStep inp).2.2 = [.refreshWarning e] ∧
    mainRun inp =
      processDoc [.refreshWarning e] (cachePath inp.homeDir)
        (rustToUppercase f) (rustToUppercase t) ((inp.parseF64 a).getD 0)
        (applyEffect inp.fileBefore eff) ∧
    ((refreshStep inp).2.1 = inp.fileBefore ∨
      (eff = .truncated ∧ inp.refreshEnv.writeAll = .error e ∧
        (refreshStep inp).2.1 = some none)) := by
  have hs := refreshStep_failed inp e eff hn hr
  refine ⟨by rw [hs], ?_, ?_⟩
  · rw [run_args inp p f t a hargs, hs]
  · rcases refresh_rates_error_effect inp.refreshEnv e eff hr with h | ⟨h, hw⟩
    · left
      rw [hs, h]
      rfl
    · right
      exact ⟨h, hw, by rw [hs, h]; rfl⟩

/-- Input of the C4 witness: stale cache, network failure during refresh. -/
def c4NetInput : Input :=
  { args := ["currency", "USD", "EUR", "100"], parseF64 := rustParseF64,
    homeDir := "/home/user", mtime := none, now := 0,
    fileBefore := some (some sampleDoc), refreshEnv := httpFailEnv }

/-- C4 witness: the amended theorem applied to a failed network fetch; the run
warns, keeps the old cache, and still converts successfully from it. -/
theorem refresh_failure_warns_continues_witness :
    ((refreshStep c4NetInput).2.2 = [.refreshWarning "connection refused"] ∧
      mainRun c4NetInput =
        processDoc [.refreshWarning "connection refused"] (cachePath "/home/user")
          (rustToUppercase "USD") (rustToUppercase "EUR")
          ((rustParseF64 "100").getD 0) (some (some sampleDoc)) ∧
      ((refreshStep c4NetInput).2.1 = c4NetInput.fileBefore ∨
        (FileEffect.untouched = FileEffect.truncated ∧
          c4NetInput.refreshEnv.writeAll = .error "connection refused" ∧
          (refreshStep c4NetInput).2.1 = some none))) ∧
    (mainRun c4NetInput).exitCode = 0 :=
  ⟨refresh_failure_warns_continues c4NetInput "currency" "USD" "EUR" "100"
      "connection refused" .untouched rfl rfl rfl, rfl⟩

/-- Input of the C5 counterexample: no positional arguments at all. -/
def c5CexInput : Input :=
  { args := ["currency"], parseF64 := rustParseF64,
    homeDir := "/home/user", mtime := some 0, now := 0,
    fileBefore := some (some sampleDoc), refreshEnv := okEnv }

/-- C5 counterexample: on an arity mismatch the program exits successfully,
but the usage message it prints to standard error has THREE lines, not two. -/
theorem usage_two_lines_cex :
    mainRun c5CexInput = ⟨[], usageMsg, 0⟩ ∧
    (mainRun c5CexInput).stderr.length = 3 ∧
    ¬ (mainRun c5CexInput).stderr.length = 2 ∧
    (mainRun c5CexInput).exitCode = 0 ∧
    usageMsg.map ErrLine.render =
      ["currency -- Currency converter.",
       "Usage:   currency FROM TO amount",
       "Example: currency USD EUR 123.45"] :=
  ⟨rfl, rfl, by decide, rfl, rfl⟩

/-- C5 (amended): for every invocation whose argument count differs from
exactly three positional arguments, the program prints a three-line usage
message to standard error and terminates with success status. -/
theorem usage_on_arity_mismatch (inp : Input) (h : inp.args.length ≠ 4) :
    mainRun inp = ⟨[], usageMsg, 0⟩ ∧ usageMsg.length = 3 := by
  constructor
  · unfold mainRun
    rw [if_pos h]
  · rfl

/-- Input of the C5 witness: five positional arguments. -/
def c5ManyInput : Input :=
  { args := ["currency", "A", "B", "C", "D", "E"], parseF64 := rustParseF64,
    homeDir := "/home/user", mtime := some 0, now := 0,
    fileBefore := some (some sampleDoc), refreshEnv := okEnv }

/-- C5 witness: the amended theorem applied to a five-argument call. -/
theorem usage_on_arity_mismatch_witness :
    mainRun c5ManyInput = ⟨[], usageMsg, 0⟩ ∧ usageMsg.length = 3 :=
  usage_on_arity_mismatch c5ManyInput (by decide)

/-- C6: a requested (uppercased) code absent from the rates object makes the
program print the "not recognized as a currency" message naming that specific
code and exit with failure status 1; this holds for the source code and,
when the source code is present, for the destination code. -/
theorem unrecognized_currency (inp : Input) (p f t a : String)
    (v : Json) (fs : List (String × Json))
    (hargs : inp.args = [p, f, t, a])
    (hfile : (refreshStep inp).2.1 = some (some v))
    (hrates : v.index "rates" = .obj fs) :
    (lookupField fs (rustToUppercase f) = none →
      mainRun inp =
        ⟨[], (refreshStep inp).2.2 ++ [.notRecognized (rustToUppercase f)], 1⟩) ∧
    (∀ vf, lookupField fs (rustToUppercase f) = some vf →
      lookupField fs (rustToUppercase t) = none →
      mainRun inp =
        ⟨[], (refreshStep inp).2.2 ++ [.notRecognized (rustToUppercase t)], 1⟩) ∧
    (∀ code, (ErrLine.notRecognized code).render =
      "Error: \x27" ++ code ++ "\x27 is not recognized as a currency.") := by
  refine ⟨?_, ?_, fun _ => rfl⟩
  · intro hf
    rw [run_args inp p f t a hargs, hfile,
      processDoc_noFrom _ _ _ _ _ v fs hrates hf]
  · intro vf hf ht
    rw [run_args inp p f t a hargs, hfile,
      processDoc_noTo _ _ _ _ _ v fs vf hrates hf ht]

/-- Input of the C6 witness: the spec's example `USD XYZ 100` against the
sample table. -/
def c6Input : Input :=
  { args := ["currency", "USD", "XYZ", "100"], parseF64 := rustParseF64,
    homeDir := "/home/user", mtime := some 0, now := 0,
    fileBefore := some (some sampleDoc), refreshEnv := okEnv }

/-- C6 witness: `XYZ` is reported as unrecognized, exit status 1. -/
theorem unrecognized_currency_witness :
    mainRun c6Input = ⟨[], [.notRecognized "XYZ"], 1⟩ ∧
    (ErrLine.notRecognized "XYZ").render =
      "Error: \x27XYZ\x27 is not recognized as a currency." :=
  ⟨(unrecognized_currency c6Input "currency" "USD" "XYZ" "100"
      sampleDoc sampleFields rfl rfl rfl).2.1 (.num 1) rfl rfl,
   (unrecognized_currency c6Input "currency" "USD" "XYZ" "100"
      sampleDoc sampleFields rfl rfl rfl).2.2 "XYZ"⟩

/-- C7: malformed numeric input is silently coerced to 0.0 and execution
continues.  Part one: an amount that does not parse as a 64-bit float is
replaced by 0 and the run proceeds into the normal pipeline unchanged.
Part two: a rate value present in the rates object but not numeric is
replaced by 0, and the run still completes with success status and no
error line — the value is never surfaced as an error. -/
theorem malformed_numeric_silent (inp : Input) (p f t a : String)
    (hargs : inp.args = [p, f, t, a]) :
    (inp.parseF64 a = none →
      mainRun inp =
        processDoc (refreshStep inp).2.2 (cachePath inp.homeDir)
          (rustToUppercase f) (rustToUppercase t) 0 (refreshStep inp).2.1) ∧
    (∀ (amt rt : ℚ) (v vf vt : Json) (fs : List (String × Json)),
      inp.parseF64 a = some amt →
      (refreshStep inp).2.1 = some (some v) →
      v.index "rates" = .obj fs →
      lookupField fs (rustToUppercase f) = some vf →
      vf.asF64 = none →
      lookupField fs (rustToUppercase t) = some vt →
      vt.asF64 = some rt →
      mainRun inp =
        ⟨[outLine (rustToUppercase f) (rustToUppercase t) amt ((amt / 0) * rt)],
          (refreshStep inp).2.2, 0⟩) := by
  constructor
  · intro hp
    rw [run_args inp p f t a hargs, hp]
    rfl
  · intro amt rt v vf vt fs hp hfile hrates hf hfnum ht htnum
    rw [run_args inp p f t a hargs, hp, hfile,
      processDoc_success _ _ _ _ _ v fs vf vt hrates hf ht, hfnum, htnum]
    rfl

/-- Input of the C7 witness, part one: the amount argument is `abc`. -/
def c7BadAmountInput : Input :=
  { args := ["currency", "USD", "EUR", "abc"], parseF64 := rustParseF64,
    homeDir := "/home/user", mtime := some 0, now := 0,
    fileBefore := some (some sampleDoc), refreshEnv := okEnv }

/-- A rate table whose `USD` entry is a JSON string instead of a number. -/
def strRateFields : List (String × Json) :=
  [("USD", .str "one"), ("EUR", .num (9 / 10))]

/-- Input of the C7 witness, part two: a non-numeric rate value. -/
def c7StrRateInput : Input :=
  { args := ["currency", "USD", "EUR", "100"], parseF64 := rustParseF64,
    homeDir := "/home/user", mtime := some 0, now := 0,
    fileBefore := some (some (.obj [("rates", .obj strRateFields)])),
    refreshEnv := okEnv }

/-- C7 witness: both coercions at concrete inputs — the unparsable amount
`abc` becomes 0 and the run goes on; the string-valued rate becomes 0 and the
run exits 0 with no error line. -/
theorem malformed_numeric_silent_witness :
    (mainRun c7BadAmountInput =
      processDoc (refreshStep c7BadAmountInput).2.2 (cachePath "/home/user")
        (rustToUppercase "USD") (rustToUppercase "EUR") 0
        (refreshStep c7BadAmountInput).2.1) ∧
    (mainRun c7StrRateInput =
      ⟨[outLine "USD" "EUR" 100 ((100 / 0) * (9 / 10))], [], 0⟩) ∧
    (mainRun c7StrRateInput).exitCode = 0 ∧
    (mainRun c7StrRateInput).stderr = [] ∧
    (mainRun c7BadAmountInput).stderr = [] :=
  ⟨(malformed_numeric_silent c7BadAmountInput "currency" "USD" "EUR" "abc" rfl).1 rfl,
   (malformed_numeric_silent c7StrRateInput "currency" "USD" "EUR" "100" rfl).2
      100 (9 / 10) (.obj [("rates", .obj strRateFields)]) (.str "one")
      (.num (9 / 10)) strRateFields rustParseF64_100 rfl rfl rfl rfl rfl rfl,
   rfl, rfl, rfl⟩

/-- Input of the C8 example run from the specification. -/
def c8Input : Input :=
  { args := ["currency", "USD", "EUR", "100"], parseF64 := rustParseF64,
    homeDir := "/home/user", mtime := some 0, now := 0,
    fileBefore := some (some sampleDoc), refreshEnv := okEnv }

/-- C8: every run that reaches a successful conversion prints exactly one
line to standard output, of the form `FROM amount = TO converted` with both
numbers to four decimal places; in particular the spec's worked example
prints exactly `USD 100.0000 = EUR 90.0000`. -/
theorem single_output_line :
    (∀ (inp : Input) (p f t a : String),
      inp.args = [p, f, t, a] →
      (mainRun inp).exitCode = 0 →
      ∃ conv, (mainRun inp).stdout =
        [outLine (rustToUppercase f) (rustToUppercase t)
          ((inp.parseF64 a).getD 0) conv]) ∧
    mainRun c8Input = ⟨["USD 100.0000 = EUR 90.0000"], [], 0⟩ := by
  constructor
  · exact run_exit0_stdout
  · rw [run_args c8Input "currency" "USD" "EUR" "100" rfl]
    have h1 : (refreshStep c8Input).2.1 = some (some sampleDoc) := rfl
    have h2 : (refreshStep c8Input).2.2 = ([] : List ErrLine) := rfl
    have h3 : c8Input.parseF64 "100" = some (100 : ℚ) := rustParseF64_100
    rw [h1, h2, h3]
    have h4 : (Json.index sampleDoc "rates") = Json.obj sampleFields := rfl
    have h5 : lookupField sampleFields (rustToUppercase "USD") = some (.num 1) := rfl
    have h6 : lookupField sampleFields (rustToUppercase "EUR") = some (.num (9 / 10)) := rfl
    rw [processDoc_success _ _ _ _ _ sampleDoc sampleFields (.num 1) (.num (9 / 10)) h4 h5 h6]
    have h7 : ((some (100 : ℚ)).getD 0 / (Json.num 1).asF64.getD 0 *
        (Json.num (9 / 10)).asF64.getD 0) = ((90 : ℕ) : ℚ) := by
      show (100 : ℚ) / 1 * (9 / 10) = ((90 : ℕ) : ℚ)
      norm_num
    have h8 : (some (100 : ℚ)).getD 0 = ((100 : ℕ) : ℚ) := by norm_num
    rw [RunOut.mk.injEq]
    refine ⟨?_, rfl, rfl⟩
    rw [show rustToUppercase "USD" = "USD" from rfl,
      show rustToUppercase "EUR" = "EUR" from rfl, h7, h8]
    unfold outLine
    rw [format4_natCast, format4_natCast]
    apply congrArg (fun s => [s])
    apply str_ext
    simp only [str_data_append]
    rfl

/-- C8 witness: the universal part applied to the example run. -/
theorem single_output_line_witness :
    ∃ conv, (mainRun c8Input).stdout =
      [outLine (rustToUppercase "USD") (rustToUppercase "EUR")
        ((c8Input.parseF64 "100").getD 0) conv] :=
  single_output_line.1 c8Input "currency" "USD" "EUR" "100" rfl rfl

/-- C9: behaviour is invariant under the case of the two currency-code
arguments — two invocations whose FROM and TO differ only in letter case
(same uppercasing) produce identical output and exit status — and a rates key
containing a lowercase ASCII letter can never equal an uppercased argument,
so it can never be matched. -/
theorem case_insensitive_codes :
    (∀ (inp : Input) (p₁ p₂ f₁ f₂ t₁ t₂ a : String),
      inp.args = [p₁, f₁, t₁, a] →
      rustToUppercase f₁ = rustToUppercase f₂ →
      rustToUppercase t₁ = rustToUppercase t₂ →
      mainRun inp = mainRun { inp with args := [p₂, f₂, t₂, a] }) ∧
    (∀ k : String, (∃ c ∈ k.data, 97 ≤ c.toNat ∧ c.toNat ≤ 122) →
      ∀ s : String, rustToUppercase s ≠ k) := by
  constructor
  · intro inp p₁ p₂ f₁ f₂ t₁ t₂ a hargs hf ht
    rw [run_args inp p₁ f₁ t₁ a hargs,
      run_args { inp with args := [p₂, f₂, t₂, a] } p₂ f₂ t₂ a rfl,
      hf, ht]
    rfl
  · rintro k ⟨c, hck, hlow⟩ s h
    subst h
    exact rustToUppercase_no_lower s c hck hlow

/-- Input of the C9 witness: lowercase codes `usd eur`. -/
def c9LowerInput : Input :=
  { args := ["currency", "usd", "eur", "100"], parseF64 := rustParseF64,
    homeDir := "/home/user", mtime := some 0, now := 0,
    fileBefore := some (some sampleDoc), refreshEnv := okEnv }

/-- C9 witness: `usd eur` behaves exactly like `USD EUR`, and no argument can
ever match a key with a lowercase letter such as `"usd"`. -/
theorem case_insensitive_codes_witness :
    mainRun c9LowerInput =
      mainRun { c9LowerInput with args := ["currency", "USD", "EUR", "100"] } ∧
    rustToUppercase "EUR" ≠ "usd" :=
  ⟨case_insensitive_codes.1 c9LowerInput "currency" "currency"
      "usd" "USD" "eur" "EUR" "100" rfl rfl rfl,
   case_insensitive_codes.2 "usd" ⟨'u', by decide, by decide⟩ "EUR"⟩

/-- C10: the source code is looked up before the destination code, so whenever
the (uppercased) FROM code is missing — in particular when both are missing —
the single error line names the FROM code, and the TO code is never reported
in that run. -/
theorem from_looked_up_first (inp : Input) (p f t a : String)
    (v : Json) (fs : List (String × Json))
    (hargs : inp.args = [p, f, t, a])
    (hfile : (refreshStep inp).2.1 = some (some v))
    (hrates : v.index "rates" = .obj fs)
    (hf : lookupField fs (rustToUppercase f) = none)
    (ht : lookupField fs (rustToUppercase t) = none) :
    mainRun inp =
      ⟨[], (refreshStep inp).2.2 ++ [.notRecognized (rustToUppercase f)], 1⟩ ∧
    (rustToUppercase t ≠ rustToUppercase f →
      ErrLine.notRecognized (rustToUppercase t) ∉ (mainRun inp).stderr) := by
  have hrun : mainRun inp =
      ⟨[], (refreshStep inp).2.2 ++ [.notRecognized (rustToUppercase f)], 1⟩ := by
    rw [run_args inp p f t a hargs, hfile,
      processDoc_noFrom _ _ _ _ _ v fs hrates hf]
  refine ⟨hrun, ?_⟩
  intro hne hmem
  rw [hrun] at hmem
  rcases List.mem_append.1 hmem with hw | hl
  · rcases refreshStep_stderr_shape inp with hsh | ⟨e, hsh⟩
    · rw [hsh] at hw
      exact List.not_mem_nil _ hw
    · rw [hsh] at hw
      rcases List.mem_singleton.1 hw with h
      exact ErrLine.noConfusion h
  · rcases List.mem_singleton.1 hl with h
    exact hne (by injection h)

/-- Input of the C10 witness: both `AAA` and `BBB` are absent from the table. -/
def c10Input : Input :=
  { args := ["currency", "AAA", "BBB", "100"], parseF64 := rustParseF64,
    homeDir := "/home/user", mtime := some 0, now := 0,
    fileBefore := some (some sampleDoc), refreshEnv := okEnv }

/-- C10 witness: with both codes missing, `AAA` is the one reported and `BBB`
never appears on standard error. -/
theorem from_looked_up_first_witness :
    mainRun c10Input = ⟨[], [.notRecognized "AAA"], 1⟩ ∧
    ErrLine.notRecognized "BBB" ∉ (mainRun c10Input).stderr := by
  have h := from_looked_up_first c10Input "currency" "AAA" "BBB" "100"
    sampleDoc sampleFields rfl rfl rfl rfl rfl
  exact ⟨h.1, h.2 (by decide)⟩
